import Mathlib

/-!
Shallow embedding of the irc-rs client core (src/main.rs): the message
parser `IrcMessage::parse`, the dispatcher `handle_message`, and the
numeric-reply handler `handle_numeric_reply`.  Strings are modelled as
`List Char` (the decoded UTF-8 line); byte offsets produced by
`str::find` and consumed by `str::split_at` are modelled explicitly via
per-character UTF-8 byte lengths, with the partial (panicking) slicing
operations returning `Option`/`Except` so that absence of panics is a
provable statement.  The printed lines of the program are modelled as
`Notification` values.
-/

/-- UTF-8 byte length of one character, as in Rust `char::len_utf8`. -/
def utf8Len (c : Char) : Nat :=
  if c.val < 0x80 then 1
  else if c.val < 0x800 then 2
  else if c.val < 0x10000 then 3
  else 4

/-- Unicode `White_Space` test, as in Rust `char::is_whitespace`. -/
def isWs (c : Char) : Bool :=
  c.val == 0x09 || c.val == 0x0A || c.val == 0x0B || c.val == 0x0C ||
  c.val == 0x0D || c.val == 0x20 || c.val == 0x85 || c.val == 0xA0 ||
  c.val == 0x1680 || (0x2000 ≤ c.val && c.val ≤ 0x200A) ||
  c.val == 0x2028 || c.val == 0x2029 || c.val == 0x202F ||
  c.val == 0x205F || c.val == 0x3000

/-- Convenience: a Lean string literal as a list of characters. -/
def str (s : String) : List Char := s.toList

/-- Tokenizer worker for `splitWs`; `acc` is the (possibly empty)
current token being accumulated. -/
def splitWsAux : List Char → List Char → List (List Char)
  | [], acc => if acc.isEmpty then [] else [acc]
  | c :: cs, acc =>
    if isWs c then
      if acc.isEmpty then splitWsAux cs [] else acc :: splitWsAux cs []
    else splitWsAux cs (acc ++ [c])

/-- Rust `str::split_whitespace`: the maximal non-whitespace runs, in
order, each nonempty. -/
def splitWs (cs : List Char) : List (List Char) := splitWsAux cs []

/-- Rust `line.find(" :")`: byte offset of the first occurrence of the
two-character pattern space-colon, if any.  (The pattern is pure ASCII,
so byte-level search and character-level search agree on UTF-8 text.) -/
def findSpCol : List Char → Option Nat
  | [] => none
  | c :: cs =>
    if c = ' ' ∧ cs.head? = some ':' then some 0
    else (findSpCol cs).map (· + utf8Len c)

/-- Rust `str::split_at` at a byte offset: `none` models the panic when
the offset is out of bounds or not on a character boundary. -/
def splitAtByte (cs : List Char) (n : Nat) : Option (List Char × List Char) :=
  if n = 0 then some ([], cs)
  else
    match cs with
    | [] => none
    | c :: cs2 =>
      if utf8Len c ≤ n then
        (splitAtByte cs2 (n - utf8Len c)).map (fun p => (c :: p.1, p.2))
      else none

/-- Rust `&s[k..]` (suffix slice from byte offset `k`): `none` models
the panic when the offset is out of bounds or not on a boundary. -/
def dropBytes (cs : List Char) (n : Nat) : Option (List Char) :=
  if n = 0 then some cs
  else
    match cs with
    | [] => none
    | c :: cs2 =>
      if utf8Len c ≤ n then dropBytes cs2 (n - utf8Len c) else none

/-- The parsed form of one line (`struct IrcMessage`); the source's
field `prefix` is called `origin` here, following the spec's name. -/
structure IrcMessage where
  origin : Option (List Char)
  command : List Char
  params : List (List Char)
deriving DecidableEq

/-- The trailing-parameter branch of `IrcMessage::parse` (the
`if let Some(colon_pos) = line.find(" :")` block) together with the
final construction of the message. -/
def applyTrailing (cs : List Char) (org : Option (List Char))
    (cmd : List Char) (ps : List (List Char)) :
    Except Unit (Option IrcMessage) :=
  match findSpCol cs with
  | some p =>
    match splitAtByte cs (p + 2) with
    | some pr =>
      Except.ok (some ⟨org, cmd,
        (splitWs pr.1).drop (if org.isSome then 2 else 1) ++ [pr.2]⟩)
    | none => Except.error ()
  | none => Except.ok (some ⟨org, cmd, ps⟩)

/-- Embeds `IrcMessage::parse`, with panics made explicit: `Except.error ()`
models a panic, `Except.ok none` models the `None` return (parse
failure), `Except.ok (some m)` a parsed message. -/
def parseE (cs : List Char) : Except Unit (Option IrcMessage) :=
  match splitWs cs with
  | [] => Except.ok none
  | first :: rest =>
    if first.head? = some ':' then
      match dropBytes first 1 with
      | some org =>
        match rest with
        | [] => Except.ok none
        | cmd :: rest2 => applyTrailing cs (some org) cmd rest2
      | none => Except.error ()
    else applyTrailing cs none first rest

/-- Embeds `IrcMessage::parse` as used by the program (a panic never occurs;
it is collapsed to `none` here and proved absent separately). -/
def parse (cs : List Char) : Option IrcMessage :=
  match parseE cs with
  | Except.ok r => r
  | Except.error _ => none

/-- Embeds `struct IrcConfig`. -/
structure IrcConfig where
  server : List Char
  port : Nat
  nick : List Char
  username : List Char
  realname : List Char
  channels : List (List Char)
deriving DecidableEq

/-- Embeds `IrcConfig::default()`. -/
def IrcConfig.default : IrcConfig :=
  ⟨str "localhost", 6667, str "user", str "user", str "user",
   [str "#general"]⟩

/-- One value per `println!` the dispatcher and numeric-reply handler
can emit; these are the observable notifications. -/
inductive Notification where
  | connected
  | namesList (channel users : List Char)
  | endOfNames (channel : List Char)
  | motdLine (text : List Char)
  | motdStart
  | motdEnd
  | serverNotice (text : List Char)
  | pingTrace (server : List Char)
  | pongTrace (server : List Char)
  | chat (target nick text : List Char)
  | joined (nick channel : List Char)
  | leftChan (nick channel : List Char)
  | unhandled (command : List Char)
deriving DecidableEq

/-- Nick extraction `origin.split('!').next().unwrap_or(origin)`: the
segment before the first `'!'`, the whole string when none. -/
def nickOf (org : List Char) : List Char := org.takeWhile (fun c => c != '!')

/-- Rust `String::len`: the UTF-8 byte length. -/
def byteLen (cs : List Char) : Nat := (cs.map utf8Len).sum

/-- Embeds `handle_numeric_reply(code, message)`, its printed lines as
notification values. -/
def handleNumericReply (code : List Char) (m : IrcMessage) :
    List Notification :=
  if code = str "001" then [Notification.connected]
  else if code = str "353" then
    if 4 ≤ m.params.length then
      [Notification.namesList (m.params.getD 2 []) (m.params.getD 3 [])]
    else []
  else if code = str "366" then
    if 2 ≤ m.params.length then
      [Notification.endOfNames (m.params.getD 1 [])]
    else []
  else if code = str "372" then
    match m.params.getLast? with
    | some text => [Notification.motdLine text]
    | none => []
  else if code = str "375" then [Notification.motdStart]
  else if code = str "376" then [Notification.motdEnd]
  else
    if m.params.isEmpty then []
    else
      match m.params.getLast? with
      | some text =>
        if 1 < byteLen text then [Notification.serverNotice text] else []
      | none => []

/-- Embeds `handle_message(message, config)`: the optional outgoing command
string and the notifications printed, in order. -/
def handleMessage (m : IrcMessage) (config : IrcConfig) :
    Option (List Char) × List Notification :=
  if m.command = str "PING" then
    match m.params.head? with
    | some server =>
      (some (str "PONG " ++ server),
       [Notification.pingTrace server, Notification.pongTrace server])
    | none => (none, [])
  else if m.command = str "001" then
    ((config.channels.head?).map (fun ch => str "JOIN " ++ ch),
     handleNumericReply (str "001") m)
  else if m.command = str "PRIVMSG" then
    (none,
      if 2 ≤ m.params.length then
        match m.origin with
        | some org =>
          [Notification.chat (m.params.getD 0 []) (nickOf org)
            (m.params.getD 1 [])]
        | none => []
      else [])
  else if m.command = str "JOIN" then
    (none,
      match m.params.head? with
      | some channel =>
        match m.origin with
        | some org => [Notification.joined (nickOf org) channel]
        | none => []
      | none => [])
  else if m.command = str "PART" then
    (none,
      match m.params.head? with
      | some channel =>
        match m.origin with
        | some org => [Notification.leftChan (nickOf org) channel]
        | none => []
      | none => [])
  else
    (none,
      if m.command.all Char.isDigit then handleNumericReply m.command m
      else [Notification.unhandled m.command])

/-- One iteration of the read loop in `main` on an already-trimmed
line: parse, then dispatch; a failed parse produces no outgoing
command and no notification. -/
def processLine (cs : List Char) (config : IrcConfig) :
    Option (List Char) × List Notification :=
  match parse cs with
  | some m => handleMessage m config
  | none => (none, [])

/-- The outgoing commands sent over one session for a given sequence of
parsed messages, in order (the loop in `main`). -/
def sessionOutgoing (msgs : List IrcMessage) (config : IrcConfig) :
    List (List Char) :=
  msgs.filterMap (fun m => (handleMessage m config).1)

theorem utf8Len_pos (c : Char) : 1 ≤ utf8Len c := by
  unfold utf8Len
  split_ifs <;> omega

theorem splitAtByte_zero (cs : List Char) : splitAtByte cs 0 = some ([], cs) := by
  cases cs <;> rfl

theorem dropBytes_zero (cs : List Char) : dropBytes cs 0 = some cs := by
  cases cs <;> rfl

/-- The byte offset returned by `find(" :")` is always a valid split
point: the pattern is ASCII, so the offset sits on a character
boundary and `offset + 2` is within bounds. -/
theorem findSpCol_splitAtByte (cs : List Char) (p : Nat)
    (h : findSpCol cs = some p) :
    ∃ pr, splitAtByte cs (p + 2) = some pr := by
  induction cs generalizing p with
  | nil => simp [findSpCol] at h
  | cons c cs ih =>
    unfold findSpCol at h
    by_cases hc : c = ' ' ∧ cs.head? = some ':'
    · rw [if_pos hc] at h
      obtain ⟨hc1, hc2⟩ := hc
      obtain ⟨t, rfl⟩ : ∃ t, cs = ':' :: t := by
        cases cs with
        | nil => simp at hc2
        | cons a t =>
          simp only [List.head?_cons, Option.some.injEq] at hc2
          exact ⟨t, by rw [hc2]⟩
      subst hc1
      have hp : p = 0 := by
        injection h with h'
        omega
      subst hp
      refine ⟨([' ', ':'], t), ?_⟩
      simp [splitAtByte, utf8Len, splitAtByte_zero]
    · rw [if_neg hc] at h
      cases hf : findSpCol cs with
      | none => rw [hf] at h; simp at h
      | some q =>
        rw [hf] at h
        simp only [Option.map_some'] at h
        have hp : p = q + utf8Len c := by
          injection h with h'
          omega
        subst hp
        obtain ⟨pr, hpr⟩ := ih q hf
        refine ⟨(c :: pr.1, pr.2), ?_⟩
        have hpos := utf8Len_pos c
        have h0 : ¬ (q + utf8Len c + 2 = 0) := by omega
        unfold splitAtByte
        rw [if_neg h0]
        dsimp only
        rw [if_pos (by omega)]
        have harith : q + utf8Len c + 2 - utf8Len c = q + 2 := by omega
        rw [harith, hpr]
        rfl

/-- The trailing-parameter branch never panics: it always returns a
message. -/
theorem applyTrailing_ok (cs : List Char) (org : Option (List Char))
    (cmd : List Char) (ps : List (List Char)) :
    ∃ msg, applyTrailing cs org cmd ps = Except.ok (some msg) := by
  unfold applyTrailing
  cases hf : findSpCol cs with
  | none => exact ⟨_, rfl⟩
  | some p =>
    dsimp only
    obtain ⟨pr, hpr⟩ := findSpCol_splitAtByte cs p hf
    rw [hpr]
    exact ⟨_, rfl⟩

/-- Totality of `IrcMessage::parse`: on every input it returns either
a message or a parse failure. -/
theorem parseE_total (cs : List Char) : ∃ r, parseE cs = Except.ok r := by
  unfold parseE
  cases hsl : splitWs cs with
  | nil => exact ⟨none, rfl⟩
  | cons first rest =>
    dsimp only
    by_cases hh : first.head? = some ':'
    · obtain ⟨t, rfl⟩ : ∃ t, first = ':' :: t := by
        cases first with
        | nil => simp at hh
        | cons a t =>
          simp only [List.head?_cons, Option.some.injEq] at hh
          exact ⟨t, by rw [hh]⟩
      rw [if_pos hh]
      have hdb : dropBytes (':' :: t) 1 = some t := by
        simp [dropBytes, utf8Len, dropBytes_zero]
      rw [hdb]
      dsimp only
      cases rest with
      | nil => exact ⟨none, rfl⟩
      | cons cmd rest2 =>
        obtain ⟨msg, hm⟩ := applyTrailing_ok cs (some t) cmd rest2
        exact ⟨some msg, hm⟩
    · rw [if_neg hh]
      obtain ⟨msg, hm⟩ := applyTrailing_ok cs none first rest
      exact ⟨some msg, hm⟩

theorem splitWsAux_nil_iff (cs : List Char) (acc : List Char) :
    splitWsAux cs acc = [] ↔ (cs.all isWs = true ∧ acc = []) := by
  induction cs generalizing acc with
  | nil => cases acc <;> simp [splitWsAux]
  | cons c cs ih =>
    cases acc with
    | nil =>
      by_cases hc : isWs c = true
      · simp [splitWsAux, hc, ih]
      · simp [splitWsAux, hc, ih]
    | cons a acc2 =>
      by_cases hc : isWs c = true
      · simp [splitWsAux, hc]
      · simp [splitWsAux, hc, ih]

/-- Tokenization by `split_whitespace` yields no token exactly on all-whitespace
input. -/
theorem splitWs_nil_iff (cs : List Char) :
    splitWs cs = [] ↔ cs.all isWs = true := by
  unfold splitWs
  rw [splitWsAux_nil_iff]
  simp

theorem parse_none_iff_parseE (cs : List Char) :
    parse cs = none ↔ parseE cs = Except.ok none := by
  obtain ⟨r, hr⟩ := parseE_total cs
  unfold parse
  rw [hr]
  cases r <;> simp

/-- C7: `parse` fails exactly on input whose characters are all
whitespace (hence also the empty line), or whose whitespace
tokenization is a single token beginning with the prefix marker `':'`;
and the loop step of `main` produces no outgoing command and no
notification for a failed line. -/
theorem C7_parse_failure_conditions (cs : List Char) (cfg : IrcConfig) :
    (parse cs = none ↔
      (cs.all isWs = true ∨
        ∃ t, splitWs cs = [t] ∧ t.head? = some ':')) ∧
    (parse cs = none → processLine cs cfg = (none, [])) := by
  refine ⟨?_, ?_⟩
  · rw [parse_none_iff_parseE]
    unfold parseE
    cases hsl : splitWs cs with
    | nil =>
      constructor
      · intro _
        exact Or.inl ((splitWs_nil_iff cs).mp hsl)
      · intro _
        rfl
    | cons first rest =>
      dsimp only
      by_cases hh : first.head? = some ':'
      · obtain ⟨t, rfl⟩ : ∃ t, first = ':' :: t := by
          cases first with
          | nil => simp at hh
          | cons a t =>
            simp only [List.head?_cons, Option.some.injEq] at hh
            exact ⟨t, by rw [hh]⟩
        rw [if_pos hh]
        rw [show dropBytes (':' :: t) 1 = some t from by
          simp [dropBytes, utf8Len, dropBytes_zero]]
        dsimp only
        cases rest with
        | nil =>
          constructor
          · intro _
            exact Or.inr ⟨':' :: t, rfl, rfl⟩
          · intro _
            rfl
        | cons cmd rest2 =>
          dsimp only
          obtain ⟨msg, hm⟩ := applyTrailing_ok cs (some t) cmd rest2
          rw [hm]
          constructor
          · intro hcontra
            exact absurd hcontra (by simp)
          · rintro (hall | ⟨u, hu, hh2⟩)
            · have h0 := (splitWs_nil_iff cs).mpr hall
              rw [hsl] at h0
              simp at h0
            · simp at hu
      · rw [if_neg hh]
        obtain ⟨msg, hm⟩ := applyTrailing_ok cs none first rest
        rw [hm]
        constructor
        · intro hcontra
          exact absurd hcontra (by simp)
        · rintro (hall | ⟨u, hu, hh2⟩)
          · have h0 := (splitWs_nil_iff cs).mpr hall
            rw [hsl] at h0
            simp at h0
          · simp only [List.cons.injEq] at hu
            obtain ⟨rfl, -⟩ := hu
            exact absurd hh2 hh
  · intro hn
    simp [processLine, hn]

/-- C7 witness: a whitespace-only line fails to parse and the loop
step emits nothing for it. -/
theorem C7_parse_failure_conditions_witness :
    parse (str "   ") = none ∧
    processLine (str "   ") IrcConfig.default = (none, []) := by
  have h := C7_parse_failure_conditions (str "   ") IrcConfig.default
  have hn : parse (str "   ") = none := h.1.mpr (Or.inl (by decide))
  exact ⟨hn, h.2 hn⟩

/-- C10: on every input — arbitrary UTF-8 content included — the
parser returns normally (`ok`: some message or a failure) and never
hits a panicking slice: the byte-indexed operations inside, modelled
as partial, always succeed. -/
theorem C10_parse_never_panics (cs : List Char) :
    ∃ r, parseE cs = Except.ok r :=
  parseE_total cs

/-- C1: Contrary to the claim, `parse "PING :irc.example.com"` does not
yield the single parameter list `["irc.example.com"]`: the code splits
the line at `colon_pos + 2`, so the left half ends in `" :"` and its
lone `":"` survives as a whitespace token, giving the parameters
`[":", "irc.example.com"]`; dispatching the parsed message then yields
the outgoing command `"PONG :"` instead of `"PONG irc.example.com"`. -/
theorem C1_ping_pong_divergence :
    parse (str "PING :irc.example.com") =
      some ⟨none, str "PING", [str ":", str "irc.example.com"]⟩ ∧
    (handleMessage ⟨none, str "PING", [str ":", str "irc.example.com"]⟩
      IrcConfig.default).1 = some (str "PONG :") ∧
    (handleMessage ⟨none, str "PING", [str ":", str "irc.example.com"]⟩
      IrcConfig.default).1 ≠ some (str "PONG irc.example.com") := by
  decide

/-- C2: Contrary to the claim, `parse "COMMAND :"` does not yield the
single parameter `""`: the boundary's lone `":"` is kept as an extra
middle token, so the parameters are `[":", ""]`. -/
theorem C2_trailing_boundary_divergence :
    parse (str "COMMAND :") =
      some ⟨none, str "COMMAND", [str ":", str ""]⟩ ∧
    parse (str "COMMAND :") ≠
      some ⟨none, str "COMMAND", [str ""]⟩ := by
  decide

/-- C3: Contrary to the claim, parsing the PRIVMSG example yields the
parameters `["#general", ":", "hello there"]` (the boundary's lone
`":"` is kept as a token), so the chat notification's text — the
second parameter — is `":"` rather than `"hello there"`. -/
theorem C3_privmsg_divergence :
    parse (str ":nick!user@host PRIVMSG #general :hello there") =
      some ⟨some (str "nick!user@host"), str "PRIVMSG",
        [str "#general", str ":", str "hello there"]⟩ ∧
    (handleMessage ⟨some (str "nick!user@host"), str "PRIVMSG",
        [str "#general", str ":", str "hello there"]⟩
      IrcConfig.default).2 =
      [Notification.chat (str "#general") (str "nick") (str ":")] ∧
    Notification.chat (str "#general") (str "nick") (str "hello there") ∉
      (handleMessage ⟨some (str "nick!user@host"), str "PRIVMSG",
          [str "#general", str ":", str "hello there"]⟩
        IrcConfig.default).2 := by
  decide

/-- C4 counterexample: the dispatcher keeps no registration state, so a
session that receives the welcome numeric twice sends the JOIN command
twice — the claim's "at most once per session" is false. -/
theorem C4_second_welcome_joins_again :
    ¬ ((sessionOutgoing
          [⟨some (str "server"), str "001", [str "mynick", str "Welcome"]⟩,
           ⟨some (str "server"), str "001", [str "mynick", str "Welcome"]⟩]
          IrcConfig.default).countP
        (fun out => out == str "JOIN #general") ≤ 1) := by
  decide

/-- C5 counterexample: the command `"12"` is not a 3-digit token, yet
dispatch routes it to numeric-reply handling (the code tests only that
every character is an ASCII digit, not that there are exactly three),
emitting the generic server notice instead of the "unhandled command"
notification the claim requires. -/
theorem C5_two_digit_routed_numeric :
    (handleMessage ⟨none, str "12", [str "ab"]⟩ IrcConfig.default).2 =
      [Notification.serverNotice (str "ab")] ∧
    Notification.unhandled (str "12") ∉
      (handleMessage ⟨none, str "12", [str "ab"]⟩ IrcConfig.default).2 := by
  decide

/-- C8 counterexample: a `353` reply with one parameter `"ab"` produces
no notification at all — the matched `"353"` arm's guard fails and the
message does not fall through to the generic suppression rule (which
would have emitted a server notice with `"ab"`). -/
theorem C8_no_fallthrough :
    handleNumericReply (str "353") ⟨none, str "353", [str "ab"]⟩ = [] ∧
    Notification.serverNotice (str "ab") ∉
      handleNumericReply (str "353") ⟨none, str "353", [str "ab"]⟩ := by
  decide

/-- The outgoing command of one dispatch: a PONG echo for `PING` with
at least one parameter, a JOIN of the first configured channel for
`"001"`, and nothing otherwise. -/
theorem handleMessage_fst (m : IrcMessage) (cfg : IrcConfig) :
    (handleMessage m cfg).1 =
      if m.command = str "PING" then
        (m.params.head?).map (fun s => str "PONG " ++ s)
      else if m.command = str "001" then
        (cfg.channels.head?).map (fun ch => str "JOIN " ++ ch)
      else none := by
  unfold handleMessage
  by_cases h1 : m.command = str "PING"
  · rw [if_pos h1, if_pos h1]
    cases hp : m.params.head? <;> rfl
  · rw [if_neg h1, if_neg h1]
    by_cases h2 : m.command = str "001"
    · rw [if_pos h2, if_pos h2]
    · rw [if_neg h2, if_neg h2]
      by_cases h3 : m.command = str "PRIVMSG"
      · rw [if_pos h3]
      · rw [if_neg h3]
        by_cases h4 : m.command = str "JOIN"
        · rw [if_pos h4]
        · rw [if_neg h4]
          by_cases h5 : m.command = str "PART"
          · rw [if_pos h5]
          · rw [if_neg h5]

theorem pong_ne_join (s ch : List Char) :
    ¬ (str "PONG " ++ s = str "JOIN " ++ ch) := by
  intro h
  have h' : 'P' :: (str "ONG " ++ s) = 'J' :: (str "OIN " ++ ch) := h
  injection h' with h1 _
  exact absurd h1 (by decide)

theorem sessionOutgoing_cons_none (m : IrcMessage) (ms : List IrcMessage)
    (cfg : IrcConfig) (h : (handleMessage m cfg).1 = none) :
    sessionOutgoing (m :: ms) cfg = sessionOutgoing ms cfg := by
  unfold sessionOutgoing
  rw [List.filterMap_cons]
  rw [h]

theorem sessionOutgoing_cons_some (m : IrcMessage) (ms : List IrcMessage)
    (cfg : IrcConfig) (out : List Char)
    (h : (handleMessage m cfg).1 = some out) :
    sessionOutgoing (m :: ms) cfg = out :: sessionOutgoing ms cfg := by
  unfold sessionOutgoing
  rw [List.filterMap_cons]
  rw [h]

/-- C4 (amended): the dispatcher keeps no registration state, so for
any sequence of dispatched messages with a nonempty channel list, the
number of `"JOIN <first channel>"` commands sent equals the number of
welcome numerics received — one JOIN per `"001"`, not at most one per
session. -/
theorem C4_join_count (msgs : List IrcMessage) (cfg : IrcConfig)
    (ch : List Char) (rest : List (List Char))
    (h : cfg.channels = ch :: rest) :
    (sessionOutgoing msgs cfg).countP (fun out => out == str "JOIN " ++ ch) =
      msgs.countP (fun m => m.command == str "001") := by
  induction msgs with
  | nil => rfl
  | cons m ms ih =>
    rw [List.countP_cons]
    have hf := handleMessage_fst m cfg
    by_cases h1 : m.command = str "PING"
    · rw [if_pos h1] at hf
      have hq : (m.command == str "001") = false := by
        rw [h1]
        decide
      cases hp : m.params.head? with
      | none =>
        rw [hp] at hf
        simp only [Option.map_none'] at hf
        rw [sessionOutgoing_cons_none m ms cfg hf, ih]
        simp [hq]
      | some s =>
        rw [hp] at hf
        simp only [Option.map_some'] at hf
        rw [sessionOutgoing_cons_some m ms cfg _ hf, List.countP_cons, ih]
        have hne : ((str "PONG " ++ s) == (str "JOIN " ++ ch)) = false := by
          simp [pong_ne_join]
        simp [hq, hne]
    · rw [if_neg h1] at hf
      by_cases h2 : m.command = str "001"
      · rw [if_pos h2, h] at hf
        simp only [List.head?_cons, Option.map_some'] at hf
        have hq : (m.command == str "001") = true := by
          rw [h2]
          decide
        rw [sessionOutgoing_cons_some m ms cfg _ hf, List.countP_cons, ih]
        simp [hq]
      · rw [if_neg h2] at hf
        have hq : (m.command == str "001") = false := by
          simp [h2]
        rw [sessionOutgoing_cons_none m ms cfg hf, ih]
        simp [hq]

/-- C4 witness: a session receiving the welcome numeric twice with the
default configuration sends `"JOIN #general"` exactly twice. -/
theorem C4_join_count_witness :
    (sessionOutgoing
        [⟨some (str "server"), str "001", [str "mynick"]⟩,
         ⟨some (str "server"), str "001", [str "mynick"]⟩]
        IrcConfig.default).countP
      (fun out => out == str "JOIN " ++ str "#general") = 2 := by
  rw [C4_join_count _ IrcConfig.default (str "#general") [] rfl]
  decide

/-- C6: for every message whose command is the welcome numeric `"001"`
and every configuration, the outgoing command is `"JOIN "` followed by
the first configured channel when the channel list is nonempty, and
nothing when it is empty. -/
theorem C6_welcome_join (m : IrcMessage) (cfg : IrcConfig)
    (h : m.command = str "001") :
    (handleMessage m cfg).1 =
      (cfg.channels.head?).map (fun ch => str "JOIN " ++ ch) := by
  unfold handleMessage
  rw [h, if_neg (by decide), if_pos rfl]

/-- C6 witness: on the spec's example message and the default
configuration (one channel `"#general"`), the outgoing command is
`"JOIN #general"`. -/
theorem C6_welcome_join_witness :
    (handleMessage
      ⟨some (str "server"), str "001", [str "mynick", str "Welcome"]⟩
      IrcConfig.default).1 = some (str "JOIN #general") := by
  rw [C6_welcome_join _ IrcConfig.default rfl]
  decide

/-- C8 (amended): a `353` names-list reply carrying fewer than 4
parameters produces no notification at all — the `"353"` arm matches,
its length guard fails, and nothing is emitted (no out-of-range access
is even attempted; there is no fall-through to the generic rule). -/
theorem C8_short_names_reply_silent (m : IrcMessage)
    (h : m.params.length < 4) :
    handleNumericReply (str "353") m = [] := by
  unfold handleNumericReply
  rw [if_neg (by decide), if_pos rfl, if_neg (by omega)]

/-- C8 witness: a `353` reply with two parameters yields no
notification. -/
theorem C8_short_names_reply_silent_witness :
    handleNumericReply (str "353")
      ⟨none, str "353", [str "ab", str "cd"]⟩ = [] :=
  C8_short_names_reply_silent _ (by decide)

/-- C9 (amended): for every numeric code other than `"001"`, `"353"`,
`"366"`, `"372"`, `"375"`, `"376"`, the handler emits a server notice
with the last parameter exactly when a last parameter exists and its
UTF-8 byte length exceeds 1; otherwise nothing. -/
theorem C9_generic_suppression (code : List Char) (m : IrcMessage)
    (h : code ∉ [str "001", str "353", str "366", str "372",
                 str "375", str "376"]) :
    handleNumericReply code m =
      match m.params.getLast? with
      | some text =>
        if 1 < byteLen text then [Notification.serverNotice text] else []
      | none => [] := by
  simp only [List.mem_cons, List.not_mem_nil, or_false, not_or] at h
  obtain ⟨h1, h2, h3, h4, h5, h6⟩ := h
  obtain ⟨o, c, ps⟩ := m
  unfold handleNumericReply
  rw [if_neg h1, if_neg h2, if_neg h3, if_neg h4, if_neg h5, if_neg h6]
  cases ps with
  | nil => rfl
  | cons a l => rfl

/-- C9 witness: code `"999"` with one two-byte parameter emits the
server notice with that parameter. -/
theorem C9_generic_suppression_witness :
    handleNumericReply (str "999") ⟨none, str "999", [str "hi"]⟩ =
      [Notification.serverNotice (str "hi")] := by
  rw [C9_generic_suppression _ _ (by decide)]
  decide

/-- C5 (amended): a message whose command matches none of `PING`,
`001`, `PRIVMSG`, `JOIN`, `PART` is routed to numeric-reply handling
exactly when every character of the command is an ASCII digit (any
length, not only 3), and otherwise yields the generic "unhandled
command" notification with the raw token; either way no outgoing
command is produced. -/
theorem C5_unmatched_command_dispatch (m : IrcMessage) (cfg : IrcConfig)
    (h : m.command ∉ [str "PING", str "001", str "PRIVMSG",
                      str "JOIN", str "PART"]) :
    handleMessage m cfg =
      (none,
        if m.command.all Char.isDigit then handleNumericReply m.command m
        else [Notification.unhandled m.command]) := by
  simp only [List.mem_cons, List.not_mem_nil, or_false, not_or] at h
  obtain ⟨h1, h2, h3, h4, h5⟩ := h
  unfold handleMessage
  rw [if_neg h1, if_neg h2, if_neg h3, if_neg h4, if_neg h5]

/-- C5 witness: an alphabetic unlisted command yields only the
unhandled-command notification and no outgoing command. -/
theorem C5_unmatched_command_dispatch_witness :
    handleMessage ⟨none, str "ABC", []⟩ IrcConfig.default =
      (none, [Notification.unhandled (str "ABC")]) := by
  rw [C5_unmatched_command_dispatch _ IrcConfig.default (by decide)]
  decide

/-- C9 counterexample: two failures of the claim as stated.  The code
`"001"` is none of the five listed codes, yet numeric-reply handling
emits the fixed "Connected to server" notification, not the claimed
server notice.  And the suppression threshold is the UTF-8 byte length,
not the character count: the single character `"é"` has byte length 2,
so it is emitted although its length in characters is 1. -/
theorem C9_welcome_and_bytelen_divergence :
    (handleNumericReply (str "001") ⟨none, str "001", [str "ab"]⟩ =
        [Notification.connected] ∧
      Notification.serverNotice (str "ab") ∉
        handleNumericReply (str "001") ⟨none, str "001", [str "ab"]⟩) ∧
    ((str "é").length = 1 ∧
      handleNumericReply (str "999") ⟨none, str "999", [str "é"]⟩ =
        [Notification.serverNotice (str "é")]) := by
  decide
